import Mathlib

/-!
Verification of the Scintilla-Network/signatures capability-abstraction and
validation/normalization layer: a shallow embedding of the format
normalization subsystem (`src/utils/format.js`) and of the algorithm
adapters (`src/classic/*.js`, `src/pq/*.js`, key-exchange adapters), with
theorems about validation ordering, length discipline, determinism of
seeded key generation, and the sign/verify round trip.

JavaScript values that cross the adapter API boundary are modelled by the
inductive type `JSValue`; byte buffers (`Uint8Array`) are lists of `Nat`.
Functions that throw are modelled as `Except String`-valued, carrying the
exact error-message strings of the source.  The external primitive
providers (noble curves / noble post-quantum) are abstract structures:
their mathematics is out of scope, so theorems about delegation are
parameterized over a provider.
-/

namespace Signatures

/-- A JavaScript value as it can arrive at the library's public API:
a `Uint8Array` (modelled as a list of bytes), a string, a number, a
boolean, an array, a plain object (ordered own enumerable string-keyed
fields), `null`, or `undefined`. -/
inductive JSValue where
  | bytes (b : List Nat)
  | str (s : String)
  | num (n : Int)
  | bool (b : Bool)
  | arr (elems : List JSValue)
  | obj (fields : List (String × JSValue))
  | null
  | undefined

/-- Modelled from the spec: `isUint8Array` of `src/utils/types.js` (its
implementation is not under src/, only its `.d.ts` declaration): true
exactly on byte buffers. -/
def isUint8Array : JSValue → Bool
  | .bytes _ => true
  | _ => false

/-- A character in `[0-9a-fA-F]`. -/
def isHexDigit (c : Char) : Bool :=
  (48 ≤ c.toNat && c.toNat ≤ 57) ||
  (97 ≤ c.toNat && c.toNat ≤ 102) ||
  (65 ≤ c.toNat && c.toNat ≤ 70)

/-- Numeric value of a hex digit. -/
def hexDigitVal (c : Char) : Nat :=
  if c.toNat ≤ 57 then c.toNat - 48
  else if 97 ≤ c.toNat then c.toNat - 87
  else c.toNat - 55

/-- Modelled from the spec: `isHexString` of `src/utils/types.js` (its
implementation is not under src/): the strict hex pattern — even length,
every character in `[0-9a-fA-F]`. -/
def isHexString (s : String) : Bool :=
  s.data.length % 2 == 0 && s.data.all isHexDigit

/-- Decode consecutive pairs of hex digits into bytes. -/
def hexPairsToBytes : List Char → List Nat
  | c1 :: c2 :: rest => (hexDigitVal c1 * 16 + hexDigitVal c2) :: hexPairsToBytes rest
  | _ => []

/-- Modelled from the spec: `fromHex` of `src/utils/hex.js` (its
implementation is not under src/): hex-decode a string. -/
def fromHex (s : String) : List Nat :=
  hexPairsToBytes s.data

/-- UTF-8 encoding of one Unicode scalar value. -/
def utf8EncodeChar (c : Char) : List Nat :=
  let n := c.toNat
  if n < 128 then [n]
  else if n < 2048 then [192 + n / 64, 128 + n % 64]
  else if n < 65536 then [224 + n / 4096, 128 + (n / 64) % 64, 128 + n % 64]
  else [240 + n / 262144, 128 + (n / 4096) % 64, 128 + (n / 64) % 64, 128 + n % 64]

/-- Modelled from the spec: the host's `TextEncoder().encode` — UTF-8
encoding of a string. -/
def utf8Encode (s : String) : List Nat :=
  (s.data.map utf8EncodeChar).flatten

/-- Lower-case hex digit character for a value below 16. -/
def toHexDigitChar (n : Nat) : Char :=
  if n < 10 then Char.ofNat (48 + n) else Char.ofNat (87 + n)

/-- JSON string escaping of one character, as the host `JSON.stringify`
performs it. -/
def jsonEscapeChar (c : Char) : List Char :=
  if c = '"' then ['\\', '"']
  else if c = '\\' then ['\\', '\\']
  else if c = Char.ofNat 8 then ['\\', 'b']
  else if c = Char.ofNat 9 then ['\\', 't']
  else if c = Char.ofNat 10 then ['\\', 'n']
  else if c = Char.ofNat 12 then ['\\', 'f']
  else if c = Char.ofNat 13 then ['\\', 'r']
  else if c.toNat < 32 then
    ['\\', 'u', '0', '0', toHexDigitChar (c.toNat / 16), toHexDigitChar (c.toNat % 16)]
  else [c]

/-- A JSON-quoted string. -/
def jsonQuote (s : String) : String :=
  "\"" ++ String.mk ((s.data.map jsonEscapeChar).flatten) ++ "\""

/-- Join serialized items with commas. -/
def commaJoin : List String → String
  | [] => ""
  | [x] => x
  | x :: xs => x ++ "," ++ commaJoin xs

/-- How the host `JSON.stringify` serializes a `Uint8Array`: an object
keyed by decimal indices. -/
def stringifyBytes (b : List Nat) : String :=
  "\x7b" ++ commaJoin (b.enum.map (fun p => jsonQuote (toString p.1) ++ ":" ++ toString p.2)) ++ "\x7d"

mutual

/-- Modelled from the spec: the host `JSON.stringify` ("serialized to
canonical JSON text"), restricted to the value universe of `JSValue`.
Object fields keep insertion order; `undefined` fields are skipped;
`undefined` array elements serialize as `null`. -/
def jsonStringify : JSValue → String
  | .bytes b => stringifyBytes b
  | .str s => jsonQuote s
  | .num n => toString n
  | .bool b => if b then "true" else "false"
  | .null => "null"
  | .undefined => "null"
  | .arr xs => "[" ++ commaJoin (jsonStringifyElems xs) ++ "]"
  | .obj fs => "\x7b" ++ commaJoin (jsonStringifyFields fs) ++ "\x7d"

/-- Serialize the elements of a JSON array. -/
def jsonStringifyElems : List JSValue → List String
  | [] => []
  | x :: xs => jsonStringify x :: jsonStringifyElems xs

/-- Serialize the fields of a JSON object, skipping `undefined` values. -/
def jsonStringifyFields : List (String × JSValue) → List String
  | [] => []
  | (_, .undefined) :: fs => jsonStringifyFields fs
  | (k, v) :: fs => (jsonQuote k ++ ":" ++ jsonStringify v) :: jsonStringifyFields fs

end

/-- `formatMessage` of `src/utils/format.js`: a byte buffer is returned
unchanged; a string is hex-decoded when it matches the strict hex
pattern and UTF-8 encoded otherwise; a non-null non-array object is
serialized to JSON then UTF-8 encoded; everything else is a type error.
(The `try/catch` around `JSON.stringify` is the identity here because
serialization of finite `JSValue` trees is total.) -/
def formatMessage : JSValue → Except String (List Nat)
  | .bytes b => .ok b
  | .str s => if isHexString s then .ok (fromHex s) else .ok (utf8Encode s)
  | .obj fs => .ok (utf8Encode (jsonStringify (.obj fs)))
  | _ => .error "Message must be a string, Uint8Array, or JSON object"

/-- `formatMessageHash` of `src/utils/format.js`: a byte buffer must be
exactly 32 bytes and is returned unchanged; a non-string non-buffer is a
type error; a string must match the strict hex pattern (else the type
error) and decode to exactly 32 bytes (else the length error). -/
def formatMessageHash : JSValue → Except String (List Nat)
  | .bytes b =>
      if b.length ≠ 32 then .error "Message hash must be 32 bytes" else .ok b
  | .str s =>
      if isHexString s = false then .error "Message must be a string, Uint8Array, or JSON object"
      else if (fromHex s).length ≠ 32 then .error "Message hash must be 32 bytes"
      else .ok (fromHex s)
  | _ => .error "Message must be a string, Uint8Array, or JSON object"

/-- The message-shape guard shared verbatim by the `ed25519` and
`secp256k1` sign/verify methods:
`message instanceof Uint8Array || typeof message === 'string' ||
(message && typeof message === 'object' && !Array.isArray(message) &&
Object.keys(message).length > 0)`. -/
def messageShapeGuard : JSValue → Bool
  | .bytes _ => true
  | .str _ => true
  | .obj fs => decide (0 < fs.length)
  | _ => false

/-- The extra string guard of the `secp256k1` sign/verify methods:
`typeof message === 'string' && !isHexString(message)`. -/
def isNonHexStr : JSValue → Bool
  | .str s => !(isHexString s)
  | _ => false

/-- Field access on a JS object: `obj.key`, yielding `undefined` when no
own field named `key` exists. -/
def objGet (fields : List (String × JSValue)) (key : String) : JSValue :=
  match fields.find? (fun p => p.1 == key) with
  | some p => p.2
  | none => JSValue.undefined

/-- An external curve-signature primitive provider (noble): derives a
public key from a private key, signs a byte message with a private key,
and verifies a signature against a message and public key.  Its
mathematics is out of scope; adapter theorems are parameterized over
it. -/
structure SigProvider where
  getPublicKey : List Nat → List Nat
  sign : List Nat → List Nat → List Nat
  verify : List Nat → List Nat → List Nat → Bool

/-- An external ML-DSA primitive provider (noble post-quantum):
`keygen(seed)` yields the pair (publicKey, secretKey); `sign(secretKey,
message)`; `verify(publicKey, message, signature)`. -/
structure DsaProvider where
  keygen : List Nat → List Nat × List Nat
  sign : List Nat → List Nat → List Nat
  verify : List Nat → List Nat → List Nat → Bool

namespace ed25519

/-- `ed25519.generatePrivateKey` (classic group): a supplied seed must be
a `Uint8Array` of 32 bytes and is returned verbatim; with no seed the
host's random 32 bytes are returned. -/
def generatePrivateKey (random : List Nat) : Option JSValue → Except String (List Nat)
  | some (.bytes s) => if s.length ≠ 32 then .error "seed must be 32 bytes" else .ok s
  | some _ => .error "seed must be a Uint8Array"
  | none => .ok random

/-- `ed25519.getPublicKey`: type and 32-byte length check, then delegate. -/
def getPublicKey (P : SigProvider) : JSValue → Except String (List Nat)
  | .bytes k => if k.length ≠ 32 then .error "privateKey must be 32 bytes" else .ok (P.getPublicKey k)
  | _ => .error "privateKey must be a Uint8Array"

/-- `ed25519.generateKeyPair`: derive the private key from the seed, then
the public key from the private key. -/
def generateKeyPair (P : SigProvider) (random : List Nat) (seed : Option JSValue) :
    Except String (List Nat × List Nat) :=
  match generatePrivateKey random seed with
  | .error e => .error e
  | .ok sk =>
    match getPublicKey P (.bytes sk) with
    | .error e => .error e
    | .ok pk => .ok (sk, pk)

/-- `ed25519.sign(message, privateKey)`: message-shape guard, format
normalization, private-key type and length checks, then delegation.
(The catch clause remapping a provider-internal 'No root' error is the
identity here because the modelled provider is total.) -/
def sign (P : SigProvider) (message privateKey : JSValue) : Except String (List Nat) :=
  if messageShapeGuard message = false then
    .error "Message must be a string, Uint8Array, or JSON object"
  else
    match formatMessage message with
    | .error e => .error e
    | .ok fm =>
      match privateKey with
      | .bytes k => if k.length ≠ 32 then .error "privateKey must be 32 bytes" else .ok (P.sign fm k)
      | _ => .error "privateKey must be a Uint8Array"

/-- `ed25519.verify(signature, message, publicKey)`: signature type and
64-byte length checks, message-shape guard, format normalization,
public-key type and 32-byte length checks, then delegation. -/
def verify (P : SigProvider) (signature message publicKey : JSValue) : Except String Bool :=
  match signature with
  | .bytes sg =>
    if sg.length ≠ 64 then .error "signature must be 64 bytes"
    else if messageShapeGuard message = false then
      .error "Message must be a string, Uint8Array, or JSON object"
    else
      match formatMessage message with
      | .error e => .error e
      | .ok fm =>
        match publicKey with
        | .bytes pk =>
          if pk.length ≠ 32 then .error "publicKey must be 32 bytes" else .ok (P.verify sg fm pk)
        | _ => .error "publicKey must be a Uint8Array"
  | _ => .error "signature must be a Uint8Array"

/-- The spec's round-trip expression for ed25519:
`verify(sign(M, generateKeyPair(S).privateKey), M, generateKeyPair(S).publicKey)`. -/
def roundTrip (P : SigProvider) (random : List Nat) (seed msg : JSValue) : Except String Bool :=
  match generateKeyPair P random (some seed) with
  | .error e => .error e
  | .ok kp =>
    match sign P msg (.bytes kp.1) with
    | .error e => .error e
    | .ok sg => verify P (.bytes sg) msg (.bytes kp.2)

end ed25519

namespace secp256k1

/-- `secp256k1.generatePrivateKey` (`src/classic/secp256k1.js`): a
supplied seed must be a `Uint8Array` of 32 bytes and is returned
verbatim. -/
def generatePrivateKey (random : List Nat) : Option JSValue → Except String (List Nat)
  | some (.bytes s) => if s.length ≠ 32 then .error "seed must be 32 bytes" else .ok s
  | some _ => .error "seed must be a Uint8Array"
  | none => .ok random

/-- `secp256k1.getPublicKey`: type check only, then delegate. -/
def getPublicKey (P : SigProvider) : JSValue → Except String (List Nat)
  | .bytes k => .ok (P.getPublicKey k)
  | _ => .error "privateKey must be a Uint8Array"

/-- `secp256k1.generateKeyPair`. -/
def generateKeyPair (P : SigProvider) (random : List Nat) (seed : Option JSValue) :
    Except String (List Nat × List Nat) :=
  match generatePrivateKey random seed with
  | .error e => .error e
  | .ok sk =>
    match getPublicKey P (.bytes sk) with
    | .error e => .error e
    | .ok pk => .ok (sk, pk)

/-- `secp256k1.sign(message, privateKey)` (`src/classic/secp256k1.js`):
message-shape guard, rejection of non-hex strings, format normalization,
private-key type check, then delegation in compact form. -/
def sign (P : SigProvider) (message privateKey : JSValue) : Except String (List Nat) :=
  if messageShapeGuard message = false then
    .error "Message must be a string, Uint8Array, or JSON object"
  else if isNonHexStr message then
    .error "Message must be a string, Uint8Array, or JSON object"
  else
    match formatMessage message with
    | .error e => .error e
    | .ok fm =>
      match privateKey with
      | .bytes k => .ok (P.sign fm k)
      | _ => .error "privateKey must be a Uint8Array"

/-- `secp256k1.verify(signature, message, publicKey)`
(`src/classic/secp256k1.js`): signature type and 64-byte length checks,
message-shape guard, rejection of non-hex strings, format normalization,
public-key type check, then delegation. -/
def verify (P : SigProvider) (signature message publicKey : JSValue) : Except String Bool :=
  match signature with
  | .bytes sg =>
    if sg.length ≠ 64 then .error "signature must be 64 bytes"
    else if messageShapeGuard message = false then
      .error "Message must be a string, Uint8Array, or JSON object"
    else if isNonHexStr message then
      .error "Message must be a string, Uint8Array, or JSON object"
    else
      match formatMessage message with
      | .error e => .error e
      | .ok fm =>
        match publicKey with
        | .bytes pk => .ok (P.verify sg fm pk)
        | _ => .error "publicKey must be a Uint8Array"
  | _ => .error "signature must be a Uint8Array"

/-- The spec's round-trip expression for secp256k1. -/
def roundTrip (P : SigProvider) (random : List Nat) (seed msg : JSValue) : Except String Bool :=
  match generateKeyPair P random (some seed) with
  | .error e => .error e
  | .ok kp =>
    match sign P msg (.bytes kp.1) with
    | .error e => .error e
    | .ok sg => verify P (.bytes sg) msg (.bytes kp.2)

end secp256k1

namespace secp256k1Digest

/-- `secp256k1.generatePrivateKey` of the digest-checking variant of the
adapter (src/unnamed/part_007): identical to the classic one. -/
def generatePrivateKey (random : List Nat) : Option JSValue → Except String (List Nat)
  | some (.bytes s) => if s.length ≠ 32 then .error "seed must be 32 bytes" else .ok s
  | some _ => .error "seed must be a Uint8Array"
  | none => .ok random

/-- `secp256k1.sign` of the digest-checking variant (src/unnamed/part_007):
like the classic one but additionally requires the normalized message to
be exactly 32 bytes. -/
def sign (P : SigProvider) (message privateKey : JSValue) : Except String (List Nat) :=
  if messageShapeGuard message = false then
    .error "Message must be a string, Uint8Array, or JSON object"
  else if isNonHexStr message then
    .error "Message must be a string, Uint8Array, or JSON object"
  else
    match formatMessage message with
    | .error e => .error e
    | .ok fm =>
      if fm.length ≠ 32 then .error "message must be 32 bytes"
      else
        match privateKey with
        | .bytes k => .ok (P.sign fm k)
        | _ => .error "privateKey must be a Uint8Array"

/-- `secp256k1.verify` of the digest-checking variant (src/unnamed/part_007). -/
def verify (P : SigProvider) (signature message publicKey : JSValue) : Except String Bool :=
  match signature with
  | .bytes sg =>
    if sg.length ≠ 64 then .error "signature must be 64 bytes"
    else if messageShapeGuard message = false then
      .error "Message must be a string, Uint8Array, or JSON object"
    else if isNonHexStr message then
      .error "Message must be a string, Uint8Array, or JSON object"
    else
      match formatMessage message with
      | .error e => .error e
      | .ok fm =>
        if fm.length ≠ 32 then .error "message must be 32 bytes"
        else
          match publicKey with
          | .bytes pk => .ok (P.verify sg fm pk)
          | _ => .error "publicKey must be a Uint8Array"
  | _ => .error "signature must be a Uint8Array"

end secp256k1Digest

namespace p256

/-- `p256.generatePrivateKey` (`src/classic/p256.js`): a supplied seed
must be a `Uint8Array` of 32 bytes and is returned verbatim. -/
def generatePrivateKey (random : List Nat) : Option JSValue → Except String (List Nat)
  | some (.bytes s) => if s.length ≠ 32 then .error "seed must be 32 bytes" else .ok s
  | some _ => .error "seed must be a Uint8Array"
  | none => .ok random

/-- `p256.getPublicKey`: type check only, then delegate. -/
def getPublicKey (P : SigProvider) : JSValue → Except String (List Nat)
  | .bytes k => .ok (P.getPublicKey k)
  | _ => .error "privateKey must be a Uint8Array"

/-- `p256.sign(message, privateKey)`: digest-only — the message must be a
`Uint8Array` of exactly 32 bytes (no format normalization), the private
key a `Uint8Array`; then delegate, returning compact raw bytes. -/
def sign (P : SigProvider) (message privateKey : JSValue) : Except String (List Nat) :=
  match message with
  | .bytes m =>
    if m.length ≠ 32 then .error "message must be 32 bytes"
    else
      match privateKey with
      | .bytes k => .ok (P.sign m k)
      | _ => .error "privateKey must be a Uint8Array"
  | _ => .error "message must be a Uint8Array"

/-- `p256.verify(signature, message, publicKey)`: signature must be a
64-byte `Uint8Array`, message a 32-byte `Uint8Array`, public key a
`Uint8Array`; then delegate. -/
def verify (P : SigProvider) (signature message publicKey : JSValue) : Except String Bool :=
  match signature with
  | .bytes sg =>
    if sg.length ≠ 64 then .error "signature must be 64 bytes"
    else
      match message with
      | .bytes m =>
        if m.length ≠ 32 then .error "message must be 32 bytes"
        else
          match publicKey with
          | .bytes pk => .ok (P.verify sg m pk)
          | _ => .error "publicKey must be a Uint8Array"
      | _ => .error "message must be a Uint8Array"
  | _ => .error "signature must be a Uint8Array"

end p256

namespace p384

/-- `p384.generatePrivateKey` (`src/classic/p384.js`): a supplied seed
must be a `Uint8Array` of 48 bytes and is returned verbatim. -/
def generatePrivateKey (random : List Nat) : Option JSValue → Except String (List Nat)
  | some (.bytes s) => if s.length ≠ 48 then .error "seed must be 48 bytes" else .ok s
  | some _ => .error "seed must be a Uint8Array"
  | none => .ok random

/-- `p384.sign(message, privateKey)`: digest-only — 48-byte message
required, no normalization. -/
def sign (P : SigProvider) (message privateKey : JSValue) : Except String (List Nat) :=
  match message with
  | .bytes m =>
    if m.length ≠ 48 then .error "message must be 48 bytes"
    else
      match privateKey with
      | .bytes k => .ok (P.sign m k)
      | _ => .error "privateKey must be a Uint8Array"
  | _ => .error "message must be a Uint8Array"

/-- `p384.verify(signature, message, publicKey)`: 96-byte signature,
48-byte message, `Uint8Array` public key. -/
def verify (P : SigProvider) (signature message publicKey : JSValue) : Except String Bool :=
  match signature with
  | .bytes sg =>
    if sg.length ≠ 96 then .error "signature must be 96 bytes"
    else
      match message with
      | .bytes m =>
        if m.length ≠ 48 then .error "message must be 48 bytes"
        else
          match publicKey with
          | .bytes pk => .ok (P.verify sg m pk)
          | _ => .error "publicKey must be a Uint8Array"
      | _ => .error "message must be a Uint8Array"
  | _ => .error "signature must be a Uint8Array"

end p384

namespace p521

/-- `p521.generatePrivateKey` (`src/classic/p521.js`): a supplied seed
must be a `Uint8Array` of 66 bytes and is returned verbatim. -/
def generatePrivateKey (random : List Nat) : Option JSValue → Except String (List Nat)
  | some (.bytes s) => if s.length ≠ 66 then .error "seed must be 66 bytes" else .ok s
  | some _ => .error "seed must be a Uint8Array"
  | none => .ok random

/-- `p521.sign(message, privateKey)`: digest-only — 66-byte message
required, no normalization. -/
def sign (P : SigProvider) (message privateKey : JSValue) : Except String (List Nat) :=
  match message with
  | .bytes m =>
    if m.length ≠ 66 then .error "message must be 66 bytes"
    else
      match privateKey with
      | .bytes k => .ok (P.sign m k)
      | _ => .error "privateKey must be a Uint8Array"
  | _ => .error "message must be a Uint8Array"

/-- `p521.verify(signature, message, publicKey)`: 132-byte signature,
66-byte message, `Uint8Array` public key. -/
def verify (P : SigProvider) (signature message publicKey : JSValue) : Except String Bool :=
  match signature with
  | .bytes sg =>
    if sg.length ≠ 132 then .error "signature must be 132 bytes"
    else
      match message with
      | .bytes m =>
        if m.length ≠ 66 then .error "message must be 66 bytes"
        else
          match publicKey with
          | .bytes pk => .ok (P.verify sg m pk)
          | _ => .error "publicKey must be a Uint8Array"
      | _ => .error "message must be a Uint8Array"
  | _ => .error "signature must be a Uint8Array"

end p521

namespace bls12_381

/-- `bls12_381.generatePrivateKey` (`src/classic/bls12_381.js`): a
supplied seed must be a `Uint8Array` of 32 bytes and is returned
verbatim. -/
def generatePrivateKey (random : List Nat) : Option JSValue → Except String (List Nat)
  | some (.bytes s) => if s.length ≠ 32 then .error "seed must be 32 bytes" else .ok s
  | some _ => .error "seed must be a Uint8Array"
  | none => .ok random

/-- `bls12_381.getPublicKey`: type check only, then delegate. -/
def getPublicKey (P : SigProvider) : JSValue → Except String (List Nat)
  | .bytes k => .ok (P.getPublicKey k)
  | _ => .error "privateKey must be a Uint8Array"

/-- `bls12_381.generateKeyPair`: derive the private key from the seed,
then the public key; `return { publicKey, privateKey }`. -/
def generateKeyPair (P : SigProvider) (random : List Nat) (seed : Option JSValue) :
    Except String (List Nat × List Nat) :=
  match generatePrivateKey random seed with
  | .error e => .error e
  | .ok sk =>
    match getPublicKey P (.bytes sk) with
    | .error e => .error e
    | .ok pk => .ok (sk, pk)

/-- `bls12_381.sign(message, privateKey)`: type checks, then
`bls.sign(formatMessage(message), privateKey)`. -/
def sign (P : SigProvider) (message privateKey : JSValue) : Except String (List Nat) :=
  match message with
  | .bytes m =>
    match privateKey with
    | .bytes k =>
      match formatMessage (.bytes m) with
      | .error e => .error e
      | .ok fm => .ok (P.sign fm k)
    | _ => .error "privateKey must be a Uint8Array"
  | _ => .error "message must be a Uint8Array, use utils.formatMessage() for automatic conversion"

/-- `bls12_381.verify(message, signature, publicKey)` — NOTE the
parameter order of the source: the message is the FIRST parameter,
unlike the `(signature, message, publicKey)` order of the other signing
adapters.  Type checks, then
`bls.verify(signature, formatMessage(message), publicKey)`. -/
def verify (P : SigProvider) (message signature publicKey : JSValue) : Except String Bool :=
  match message with
  | .bytes m =>
    match signature with
    | .bytes sg =>
      match publicKey with
      | .bytes pk =>
        match formatMessage (.bytes m) with
        | .error e => .error e
        | .ok fm => .ok (P.verify sg fm pk)
      | _ => .error "publicKey must be a Uint8Array"
    | _ => .error "signature must be a Uint8Array"
  | _ => .error "message must be a Uint8Array, use utils.formatMessage() for automatic conversion"

/-- The spec's positional round-trip expression for bls12_381: the
signature value is passed as the first argument of `verify`, which for
this adapter is its `message` parameter, so the message value lands in
the `signature` parameter. -/
def roundTripSpecOrder (P : SigProvider) (random : List Nat) (seed msg : JSValue) :
    Except String Bool :=
  match generateKeyPair P random (some seed) with
  | .error e => .error e
  | .ok kp =>
    match sign P msg (.bytes kp.1) with
    | .error e => .error e
    | .ok sg => verify P (.bytes sg) msg (.bytes kp.2)

/-- The round trip with the arguments in this adapter's own declared
order: `verify(M, sign(M, privateKey), publicKey)`. -/
def roundTripAdapterOrder (P : SigProvider) (random : List Nat) (seed msg : JSValue) :
    Except String Bool :=
  match generateKeyPair P random (some seed) with
  | .error e => .error e
  | .ok kp =>
    match sign P msg (.bytes kp.1) with
    | .error e => .error e
    | .ok sg => verify P msg (.bytes sg) (.bytes kp.2)

end bls12_381

/-- The own method names of the `p256` adapter object literal
(`src/classic/p256.js`), in source order: it exposes no
`generateKeyPair`. -/
def p256.methods : List String :=
  ["generatePrivateKey", "getPublicKey", "sign", "verify"]

/-- The own method names of the `p384` adapter object literal (the
standalone copy; the copy staged with `secp256k1.js` adds point and
validity helpers): neither copy exposes a `generateKeyPair`. -/
def p384.methods : List String :=
  ["generatePrivateKey", "getPublicKey", "sign", "verify"]

/-- The own method names of the `p521` adapter object literal
(src/unnamed/part_005), in source order: it exposes no
`generateKeyPair`. -/
def p521.methods : List String :=
  ["generatePrivateKey", "getPublicKey", "sign", "verify"]

namespace ecdh

/-- `ecdh.generatePrivateKey` (X25519 key exchange): a supplied seed must
be a `Uint8Array` of 32 bytes and is returned verbatim. -/
def generatePrivateKey (random : List Nat) : Option JSValue → Except String (List Nat)
  | some (.bytes s) => if s.length ≠ 32 then .error "seed must be 32 bytes" else .ok s
  | some _ => .error "seed must be a Uint8Array"
  | none => .ok random

end ecdh

namespace sphincs256

/-- `sphincs256.generatePrivateKey` (`src/pq/sphincs256.js`,
`createSphincs`): a supplied seed must be a `Uint8Array` of 96 bytes and
is returned verbatim. -/
def generatePrivateKey (random : List Nat) : Option JSValue → Except String (List Nat)
  | some (.bytes s) => if s.length ≠ 96 then .error "seed must be 96 bytes" else .ok s
  | some _ => .error "seed must be a Uint8Array"
  | none => .ok random

/-- `sphincs256.getPublicKey`: type check, then the public-key half of
the provider's `keygen` on the private key. -/
def getPublicKey (P : DsaProvider) : JSValue → Except String (List Nat)
  | .bytes k => .ok (P.keygen k).1
  | _ => .error "privateKey must be a Uint8Array"

/-- `sphincs256.generateKeyPair`: `const { publicKey, secretKey:
privateKey } = variant.keygen(genSeed); return { publicKey, privateKey }`
— the provider's `secretKey` is renamed, so the returned object has a
`privateKey` field. -/
def generateKeyPair (P : DsaProvider) (random : List Nat) (seed : Option JSValue) :
    Except String (List (String × JSValue)) :=
  match generatePrivateKey random seed with
  | .error e => .error e
  | .ok s => .ok [("publicKey", .bytes (P.keygen s).1), ("privateKey", .bytes (P.keygen s).2)]

/-- `sphincs256.sign(message, privateKey)`: type checks, then
`variant.sign(privateKey, formatMessage(message))`. -/
def sign (P : DsaProvider) (message privateKey : JSValue) : Except String (List Nat) :=
  match message with
  | .bytes m =>
    match privateKey with
    | .bytes k =>
      match formatMessage (.bytes m) with
      | .error e => .error e
      | .ok fm => .ok (P.sign k fm)
    | _ => .error "privateKey must be a Uint8Array"
  | _ => .error "message must be a Uint8Array, use utils.formatMessage() for automatic conversion"

/-- `sphincs256.verify(signature, message, publicKey)`: type checks
(message first, as in the source), then
`variant.verify(publicKey, formatMessage(message), signature)`. -/
def verify (P : DsaProvider) (signature message publicKey : JSValue) : Except String Bool :=
  match message with
  | .bytes m =>
    match signature with
    | .bytes sg =>
      match publicKey with
      | .bytes pk =>
        match formatMessage (.bytes m) with
        | .error e => .error e
        | .ok fm => .ok (P.verify pk fm sg)
      | _ => .error "publicKey must be a Uint8Array"
    | _ => .error "signature must be a Uint8Array"
  | _ => .error "message must be a Uint8Array, use utils.formatMessage() for automatic conversion"

/-- The spec's round-trip expression for sphincs256, accessing the
`privateKey` and `publicKey` fields of the key-pair object — which this
adapter, unlike dilithium, does expose. -/
def roundTripPrivateKeyField (P : DsaProvider) (random : List Nat) (seed msg : JSValue) :
    Except String Bool :=
  match generateKeyPair P random (some seed) with
  | .error e => .error e
  | .ok kp =>
    match sign P msg (objGet kp "privateKey") with
    | .error e => .error e
    | .ok sg => verify P (.bytes sg) msg (objGet kp "publicKey")

end sphincs256

namespace dilithium65

/-- `dilithium65.generatePrivateKey` (`src/pq/dilithium65.js`): only a
type check — `if (seed !== undefined && !isUint8Array(seed)) throw`; then
`return seed || crypto.getRandomValues(new Uint8Array(32))`.  A supplied
byte buffer of any length is returned verbatim. -/
def generatePrivateKey (random : List Nat) : Option JSValue → Except String (List Nat)
  | some (.bytes s) => .ok s
  | some _ => .error "seed must be a Uint8Array, use utils.formatMessage() for automatic conversion"
  | none => .ok random

/-- `dilithium65.generateKeyPair`: `return ml_dsa65.keygen(genSeed)` —
the provider's key-pair object with fields `publicKey` and `secretKey`
is returned unmodified (no `privateKey` field). -/
def generateKeyPair (P : DsaProvider) (random : List Nat) (seed : Option JSValue) :
    Except String (List (String × JSValue)) :=
  match generatePrivateKey random seed with
  | .error e => .error e
  | .ok s => .ok [("publicKey", .bytes (P.keygen s).1), ("secretKey", .bytes (P.keygen s).2)]

/-- `dilithium65.sign(message, secretKey)`: type checks only, then
`ml_dsa65.sign(secretKey, message)`. -/
def sign (P : DsaProvider) (message secretKey : JSValue) : Except String (List Nat) :=
  match message with
  | .bytes m =>
    match secretKey with
    | .bytes sk => .ok (P.sign sk m)
    | _ => .error "secretKey must be a Uint8Array, use utils.fromHex() if you have a hex string"
  | _ => .error "message must be a Uint8Array, use utils.formatMessage() for automatic conversion"

/-- `dilithium65.verify(signature, message, publicKey)`: type checks
only, then `ml_dsa65.verify(publicKey, message, signature)`. -/
def verify (P : DsaProvider) (signature message publicKey : JSValue) : Except String Bool :=
  match signature with
  | .bytes sg =>
    match message with
    | .bytes m =>
      match publicKey with
      | .bytes pk => .ok (P.verify pk m sg)
      | _ => .error "publicKey must be a Uint8Array, use utils.fromHex() if you have a hex string"
    | _ => .error "message must be a Uint8Array, use utils.formatMessage() for automatic conversion"
  | _ => .error "signature must be a Uint8Array, use utils.fromHex() if you have a hex string"

/-- The spec's round-trip expression for dilithium65, accessing the
key-pair fields the spec names: `generateKeyPair(S).privateKey` and
`generateKeyPair(S).publicKey`. -/
def roundTripPrivateKeyField (P : DsaProvider) (random : List Nat) (seed msg : JSValue) :
    Except String Bool :=
  match generateKeyPair P random (some seed) with
  | .error e => .error e
  | .ok kp =>
    match sign P msg (objGet kp "privateKey") with
    | .error e => .error e
    | .ok sg => verify P (.bytes sg) msg (objGet kp "publicKey")

/-- The round-trip expression for dilithium65 using the field the
adapter actually returns, `generateKeyPair(S).secretKey`. -/
def roundTripSecretKeyField (P : DsaProvider) (random : List Nat) (seed msg : JSValue) :
    Except String Bool :=
  match generateKeyPair P random (some seed) with
  | .error e => .error e
  | .ok kp =>
    match sign P msg (objGet kp "secretKey") with
    | .error e => .error e
    | .ok sg => verify P (.bytes sg) msg (objGet kp "publicKey")

end dilithium65

namespace kyber1024

/-- `kyber1024.generatePrivateKey` (ML-KEM-1024 key exchange): only a
type check — `if (seed !== undefined && !isUint8Array(seed)) throw`; then
`return seed || crypto.getRandomValues(new Uint8Array(64))`.  A supplied
byte buffer of any length is returned verbatim. -/
def generatePrivateKey (random : List Nat) : Option JSValue → Except String (List Nat)
  | some (.bytes s) => .ok s
  | some _ => .error "seed must be a Uint8Array"
  | none => .ok random

end kyber1024

/-- The shapes `formatMessage` accepts: byte buffer, string, plain
object. -/
def acceptedMessageShape : JSValue → Bool
  | .bytes _ => true
  | .str _ => true
  | .obj _ => true
  | _ => false

/-- The shapes `formatMessageHash` accepts: byte buffer or string. -/
def acceptedDigestShape : JSValue → Bool
  | .bytes _ => true
  | .str _ => true
  | _ => false

/-- Every message passing the shared message-shape guard is normalized
successfully by `formatMessage`. -/
theorem formatMessage_ok_of_guard (v : JSValue) (h : messageShapeGuard v = true) :
    ∃ fm, formatMessage v = Except.ok fm := by
  cases v with
  | bytes b => exact ⟨b, rfl⟩
  | str s =>
    by_cases hx : isHexString s
    · exact ⟨fromHex s, by simp [formatMessage, hx]⟩
    · exact ⟨utf8Encode s, by simp [formatMessage, hx]⟩
  | obj fs => exact ⟨utf8Encode (jsonStringify (.obj fs)), rfl⟩
  | num n => simp [messageShapeGuard] at h
  | bool b => simp [messageShapeGuard] at h
  | arr xs => simp [messageShapeGuard] at h
  | null => simp [messageShapeGuard] at h
  | undefined => simp [messageShapeGuard] at h

/-- A curve provider used to witness provider-parameterized theorems:
public key is the private key, signatures are 64 zero bytes, and
verification accepts exactly that signature. -/
def constSig : SigProvider where
  getPublicKey := fun k => k
  sign := fun _ _ => List.replicate 64 0
  verify := fun sg _ _ => sg == List.replicate 64 0

/-- An ML-DSA provider used to witness provider-parameterized theorems:
`keygen` duplicates the seed, `sign` concatenates key and message, and
`verify` recomputes the expected signature. -/
def trivialDsa : DsaProvider where
  keygen := fun s => (s, s)
  sign := fun sk m => sk ++ m
  verify := fun pk m sg => sg == pk ++ m

/-- A curve provider that is sensitive to the order of its verify
arguments: the public key is the private key, a signature is the key
followed by the message, and verification recomputes it.  It satisfies
the primitive round trip, but accepts nothing with message and
signature exchanged (their lengths differ). -/
def ordSig : SigProvider where
  getPublicKey := fun k => k
  sign := fun m k => k ++ m
  verify := fun sg m pk => sg == pk ++ m

/-- C5: `formatMessage` returns a byte-buffer input unchanged; a string
input is hex-decoded exactly when it matches the strict hex pattern and
UTF-8 encoded otherwise; in particular `formatMessage` of the object
with field a = 1 yields the UTF-8 bytes of its JSON text, of "cafe01"
yields the bytes [0xca, 0xfe, 0x01], and of "cafe0" (odd length, so not
strict hex) yields its UTF-8 bytes, not a hex decode. -/
theorem claim_C5_formatMessage_normalization :
    (∀ b, formatMessage (.bytes b) = .ok b) ∧
    (∀ s, isHexString s = true → formatMessage (.str s) = .ok (fromHex s)) ∧
    (∀ s, isHexString s = false → formatMessage (.str s) = .ok (utf8Encode s)) ∧
    formatMessage (.obj [("a", .num 1)]) = .ok (utf8Encode "\x7b\"a\":1\x7d") ∧
    formatMessage (.str "cafe01") = .ok [202, 254, 1] ∧
    isHexString "cafe0" = false ∧
    formatMessage (.str "cafe0") = .ok (utf8Encode "cafe0") :=
  ⟨fun _ => rfl,
   fun s h => by simp [formatMessage, h],
   fun s h => by simp [formatMessage, h],
   rfl, rfl, by decide, rfl⟩

/-- C5 witness: the string clauses applied at a strict-hex string and at
a non-hex string. -/
theorem claim_C5_witness :
    formatMessage (.str "deadbeef") = .ok (fromHex "deadbeef") ∧
    formatMessage (.str "hello") = .ok (utf8Encode "hello") :=
  ⟨claim_C5_formatMessage_normalization.2.1 "deadbeef" (by decide),
   claim_C5_formatMessage_normalization.2.2.1 "hello" (by decide)⟩

/-- C7: every input that is not a byte buffer, not a string, and not a
plain (non-array, non-null) object — arrays, numbers, booleans, null,
undefined — fails in `formatMessage` with the type error naming the
three accepted shapes. -/
theorem claim_C7_formatMessage_total_errors :
    ∀ v, acceptedMessageShape v = false →
      formatMessage v = .error "Message must be a string, Uint8Array, or JSON object" := by
  intro v h
  cases v <;> first
    | rfl
    | simp [acceptedMessageShape] at h

/-- C7 witness: the empty array and null both take the type-error path. -/
theorem claim_C7_witness :
    formatMessage (.arr []) = .error "Message must be a string, Uint8Array, or JSON object" ∧
    formatMessage .null = .error "Message must be a string, Uint8Array, or JSON object" :=
  ⟨claim_C7_formatMessage_total_errors (.arr []) rfl,
   claim_C7_formatMessage_total_errors .null rfl⟩

/-- C8 counterexample: the claim says every input whose normalized form
is not exactly 32 bytes fails with a length-mismatch error, but the
string "hello" — whose normalized form under `formatMessage` is its
5-byte UTF-8 encoding — fails in `formatMessageHash` with the TYPE
error naming the three accepted shapes, not with the length-mismatch
error "Message hash must be 32 bytes". -/
theorem claim_C8_counterexample :
    formatMessage (.str "hello") = .ok (utf8Encode "hello") ∧
    (utf8Encode "hello").length ≠ 32 ∧
    formatMessageHash (.str "hello") =
      .error "Message must be a string, Uint8Array, or JSON object" :=
  ⟨rfl, by decide, rfl⟩

/-- C8 amended: `formatMessageHash` returns a 32-byte buffer unchanged
and a strict-hex string decoding to 32 bytes decoded; a buffer of any
other length, or a strict-hex string decoding to any other length,
fails with the length-mismatch error; every other input (non-hex
strings, objects, arrays, primitives) fails with the type error naming
the three accepted shapes. -/
theorem claim_C8_formatMessageHash_amended :
    (∀ b, b.length = 32 → formatMessageHash (.bytes b) = .ok b) ∧
    (∀ b, b.length ≠ 32 →
      formatMessageHash (.bytes b) = .error "Message hash must be 32 bytes") ∧
    (∀ s, isHexString s = true → (fromHex s).length = 32 →
      formatMessageHash (.str s) = .ok (fromHex s)) ∧
    (∀ s, isHexString s = true → (fromHex s).length ≠ 32 →
      formatMessageHash (.str s) = .error "Message hash must be 32 bytes") ∧
    (∀ s, isHexString s = false →
      formatMessageHash (.str s) =
        .error "Message must be a string, Uint8Array, or JSON object") ∧
    (∀ v, acceptedDigestShape v = false →
      formatMessageHash v = .error "Message must be a string, Uint8Array, or JSON object") := by
  refine ⟨?_, ?_, ?_, ?_, ?_, ?_⟩
  · intro b h; simp [formatMessageHash, h]
  · intro b h; simp [formatMessageHash, h]
  · intro s h1 h2; simp [formatMessageHash, h1, h2]
  · intro s h1 h2; simp [formatMessageHash, h1, h2]
  · intro s h; simp [formatMessageHash, h]
  · intro v h
    cases v <;> first
      | rfl
      | simp [acceptedDigestShape] at h

/-- C8 amended witness: a 32-byte buffer is returned unchanged, a
10-byte buffer takes the length error, a 64-hex-digit string decodes,
a 4-hex-digit string takes the length error, a non-hex string takes the
type error, and an object takes the type error. -/
theorem claim_C8_witness :
    formatMessageHash (.bytes (List.replicate 32 7)) = .ok (List.replicate 32 7) ∧
    formatMessageHash (.bytes (List.replicate 10 7)) = .error "Message hash must be 32 bytes" ∧
    formatMessageHash (.str (String.mk (List.replicate 64 'a'))) =
      .ok (fromHex (String.mk (List.replicate 64 'a'))) ∧
    formatMessageHash (.str "cafe") = .error "Message hash must be 32 bytes" ∧
    formatMessageHash (.str "xyz") =
      .error "Message must be a string, Uint8Array, or JSON object" ∧
    formatMessageHash (.obj []) =
      .error "Message must be a string, Uint8Array, or JSON object" :=
  ⟨claim_C8_formatMessageHash_amended.1 _ (by simp),
   claim_C8_formatMessageHash_amended.2.1 _ (by simp),
   claim_C8_formatMessageHash_amended.2.2.1 _ (by decide) (by decide),
   claim_C8_formatMessageHash_amended.2.2.2.1 _ (by decide) (by decide),
   claim_C8_formatMessageHash_amended.2.2.2.2.1 _ (by decide),
   claim_C8_formatMessageHash_amended.2.2.2.2.2 _ rfl⟩

/-- C10: the ed25519 and secp256k1 adapters reject the empty plain
object as a message in both sign and verify with the format type error
(their message guard requires a plain object to have at least one own
key), even though `formatMessage` of the empty object succeeds with the
UTF-8 bytes of its two-character JSON text. -/
theorem claim_C10_empty_object_rejected :
    (∀ (P : SigProvider) (sk : JSValue),
      ed25519.sign P (.obj []) sk =
        .error "Message must be a string, Uint8Array, or JSON object") ∧
    (∀ (P : SigProvider) (pk : JSValue),
      ed25519.verify P (.bytes (List.replicate 64 0)) (.obj []) pk =
        .error "Message must be a string, Uint8Array, or JSON object") ∧
    (∀ (P : SigProvider) (sk : JSValue),
      secp256k1.sign P (.obj []) sk =
        .error "Message must be a string, Uint8Array, or JSON object") ∧
    (∀ (P : SigProvider) (pk : JSValue),
      secp256k1.verify P (.bytes (List.replicate 64 0)) (.obj []) pk =
        .error "Message must be a string, Uint8Array, or JSON object") ∧
    formatMessage (.obj []) = .ok (utf8Encode "\x7b\x7d") := by
  refine ⟨?_, ?_, ?_, ?_, rfl⟩
  · intro P sk; simp [ed25519.sign, messageShapeGuard]
  · intro P pk; simp [ed25519.verify, messageShapeGuard]
  · intro P sk; simp [secp256k1.sign, messageShapeGuard]
  · intro P pk; simp [secp256k1.verify, messageShapeGuard]

/-- C9: both variants of the secp256k1 adapter reject every string
message that fails the strict hex pattern, in sign and in verify, with
the format type error — even though `formatMessage` accepts such a
string by UTF-8 encoding it. -/
theorem claim_C9_secp256k1_rejects_non_hex_strings :
    ∀ (s : String), isHexString s = false →
      (∀ (P : SigProvider) (k : JSValue),
        secp256k1.sign P (.str s) k =
          .error "Message must be a string, Uint8Array, or JSON object") ∧
      (∀ (P : SigProvider) (pk : JSValue),
        secp256k1.verify P (.bytes (List.replicate 64 0)) (.str s) pk =
          .error "Message must be a string, Uint8Array, or JSON object") ∧
      (∀ (P : SigProvider) (k : JSValue),
        secp256k1Digest.sign P (.str s) k =
          .error "Message must be a string, Uint8Array, or JSON object") ∧
      (∀ (P : SigProvider) (pk : JSValue),
        secp256k1Digest.verify P (.bytes (List.replicate 64 0)) (.str s) pk =
          .error "Message must be a string, Uint8Array, or JSON object") ∧
      formatMessage (.str s) = .ok (utf8Encode s) := by
  intro s h
  refine ⟨?_, ?_, ?_, ?_, ?_⟩
  · intro P k; simp [secp256k1.sign, messageShapeGuard, isNonHexStr, h]
  · intro P pk; simp [secp256k1.verify, messageShapeGuard, isNonHexStr, h]
  · intro P k; simp [secp256k1Digest.sign, messageShapeGuard, isNonHexStr, h]
  · intro P pk; simp [secp256k1Digest.verify, messageShapeGuard, isNonHexStr, h]
  · simp [formatMessage, h]

/-- C9 witness: the claim applied at the non-hex string "hello there",
with an arbitrary concrete provider and key. -/
theorem claim_C9_witness :
    secp256k1.sign constSig (.str "hello there") (.bytes []) =
      .error "Message must be a string, Uint8Array, or JSON object" ∧
    formatMessage (.str "hello there") = .ok (utf8Encode "hello there") :=
  ⟨(claim_C9_secp256k1_rejects_non_hex_strings "hello there" (by decide)).1 constSig (.bytes []),
   (claim_C9_secp256k1_rejects_non_hex_strings "hello there" (by decide)).2.2.2.2⟩

/-- C4: in every adapter a supplied seed of the wrong type fails with
the type error naming "must be a Uint8Array", whatever its length would
have measured — the type check precedes any length check. (The
dilithium65 adapter appends a usage hint to the same message.) -/
theorem claim_C4_seed_type_error_first :
    ∀ (v : JSValue), isUint8Array v = false → ∀ (r : List Nat),
      secp256k1.generatePrivateKey r (some v) = .error "seed must be a Uint8Array" ∧
      secp256k1Digest.generatePrivateKey r (some v) = .error "seed must be a Uint8Array" ∧
      ed25519.generatePrivateKey r (some v) = .error "seed must be a Uint8Array" ∧
      p256.generatePrivateKey r (some v) = .error "seed must be a Uint8Array" ∧
      p384.generatePrivateKey r (some v) = .error "seed must be a Uint8Array" ∧
      p521.generatePrivateKey r (some v) = .error "seed must be a Uint8Array" ∧
      bls12_381.generatePrivateKey r (some v) = .error "seed must be a Uint8Array" ∧
      ecdh.generatePrivateKey r (some v) = .error "seed must be a Uint8Array" ∧
      sphincs256.generatePrivateKey r (some v) = .error "seed must be a Uint8Array" ∧
      dilithium65.generatePrivateKey r (some v) =
        .error "seed must be a Uint8Array, use utils.formatMessage() for automatic conversion" ∧
      kyber1024.generatePrivateKey r (some v) = .error "seed must be a Uint8Array" := by
  intro v h r
  cases v
  case bytes b => simp [isUint8Array] at h
  all_goals exact ⟨rfl, rfl, rfl, rfl, rfl, rfl, rfl, rfl, rfl, rfl, rfl⟩

/-- C4 witness: the claim applied at the string "invalid" — a type
error naming "must be a Uint8Array", not a length error. -/
theorem claim_C4_witness :
    secp256k1.generatePrivateKey [] (some (.str "invalid")) =
      .error "seed must be a Uint8Array" ∧
    kyber1024.generatePrivateKey [] (some (.str "invalid")) =
      .error "seed must be a Uint8Array" :=
  ⟨(claim_C4_seed_type_error_first (.str "invalid") rfl []).1,
   (claim_C4_seed_type_error_first (.str "invalid") rfl []).2.2.2.2.2.2.2.2.2.2⟩

/-- C3: in every adapter `generatePrivateKey` is deterministic in its
seed — the result for a supplied seed does not depend on the host
random source — and a byte-buffer seed accepted by validation is
returned verbatim, never combined with additional entropy. -/
theorem claim_C3_generatePrivateKey_deterministic :
    (∀ (r₁ r₂ : List Nat) (v : JSValue),
      secp256k1.generatePrivateKey r₁ (some v) = secp256k1.generatePrivateKey r₂ (some v) ∧
      secp256k1Digest.generatePrivateKey r₁ (some v) = secp256k1Digest.generatePrivateKey r₂ (some v) ∧
      ed25519.generatePrivateKey r₁ (some v) = ed25519.generatePrivateKey r₂ (some v) ∧
      p256.generatePrivateKey r₁ (some v) = p256.generatePrivateKey r₂ (some v) ∧
      p384.generatePrivateKey r₁ (some v) = p384.generatePrivateKey r₂ (some v) ∧
      p521.generatePrivateKey r₁ (some v) = p521.generatePrivateKey r₂ (some v) ∧
      bls12_381.generatePrivateKey r₁ (some v) = bls12_381.generatePrivateKey r₂ (some v) ∧
      ecdh.generatePrivateKey r₁ (some v) = ecdh.generatePrivateKey r₂ (some v) ∧
      sphincs256.generatePrivateKey r₁ (some v) = sphincs256.generatePrivateKey r₂ (some v) ∧
      dilithium65.generatePrivateKey r₁ (some v) = dilithium65.generatePrivateKey r₂ (some v) ∧
      kyber1024.generatePrivateKey r₁ (some v) = kyber1024.generatePrivateKey r₂ (some v)) ∧
    (∀ (r : List Nat) (s : List Nat),
      (s.length = 32 →
        secp256k1.generatePrivateKey r (some (.bytes s)) = .ok s ∧
        secp256k1Digest.generatePrivateKey r (some (.bytes s)) = .ok s ∧
        ed25519.generatePrivateKey r (some (.bytes s)) = .ok s ∧
        p256.generatePrivateKey r (some (.bytes s)) = .ok s ∧
        bls12_381.generatePrivateKey r (some (.bytes s)) = .ok s ∧
        ecdh.generatePrivateKey r (some (.bytes s)) = .ok s) ∧
      (s.length = 48 → p384.generatePrivateKey r (some (.bytes s)) = .ok s) ∧
      (s.length = 66 → p521.generatePrivateKey r (some (.bytes s)) = .ok s) ∧
      (s.length = 96 → sphincs256.generatePrivateKey r (some (.bytes s)) = .ok s) ∧
      dilithium65.generatePrivateKey r (some (.bytes s)) = .ok s ∧
      kyber1024.generatePrivateKey r (some (.bytes s)) = .ok s) := by
  constructor
  · intro r₁ r₂ v
    cases v <;> exact ⟨rfl, rfl, rfl, rfl, rfl, rfl, rfl, rfl, rfl, rfl, rfl⟩
  · intro r s
    refine ⟨?_, ?_, ?_, ?_, rfl, rfl⟩
    · intro h
      exact ⟨by simp [secp256k1.generatePrivateKey, h],
             by simp [secp256k1Digest.generatePrivateKey, h],
             by simp [ed25519.generatePrivateKey, h],
             by simp [p256.generatePrivateKey, h],
             by simp [bls12_381.generatePrivateKey, h],
             by simp [ecdh.generatePrivateKey, h]⟩
    · intro h; simp [p384.generatePrivateKey, h]
    · intro h; simp [p521.generatePrivateKey, h]
    · intro h; simp [sphincs256.generatePrivateKey, h]

/-- C3 witness: verbatim return of concrete valid seeds of each length. -/
theorem claim_C3_witness :
    secp256k1.generatePrivateKey [9] (some (.bytes (List.replicate 32 7))) =
      .ok (List.replicate 32 7) ∧
    p384.generatePrivateKey [9] (some (.bytes (List.replicate 48 7))) =
      .ok (List.replicate 48 7) ∧
    sphincs256.generatePrivateKey [9] (some (.bytes (List.replicate 96 7))) =
      .ok (List.replicate 96 7) :=
  ⟨((claim_C3_generatePrivateKey_deterministic.2 [9] (List.replicate 32 7)).1 (by simp)).1,
   (claim_C3_generatePrivateKey_deterministic.2 [9] (List.replicate 48 7)).2.1 (by simp),
   (claim_C3_generatePrivateKey_deterministic.2 [9] (List.replicate 96 7)).2.2.2.1 (by simp)⟩

/-- C6: the digest-only adapters p256, p384, p521 skip format
normalization — a non-buffer message is rejected with a type error, a
string is never hex- or UTF-8-decoded — and require the exact digest
length (32, 48, 66 bytes), failing with a length error on any other
length, in sign and in verify. -/
theorem claim_C6_digest_only_strict_length :
    (∀ (P : SigProvider) (v k : JSValue), isUint8Array v = false →
      p256.sign P v k = .error "message must be a Uint8Array" ∧
      p384.sign P v k = .error "message must be a Uint8Array" ∧
      p521.sign P v k = .error "message must be a Uint8Array") ∧
    (∀ (P : SigProvider) (m : List Nat) (k : JSValue),
      (m.length ≠ 32 → p256.sign P (.bytes m) k = .error "message must be 32 bytes") ∧
      (m.length ≠ 48 → p384.sign P (.bytes m) k = .error "message must be 48 bytes") ∧
      (m.length ≠ 66 → p521.sign P (.bytes m) k = .error "message must be 66 bytes")) ∧
    (∀ (P : SigProvider) (m : List Nat) (pk : JSValue),
      (m.length ≠ 32 → p256.verify P (.bytes (List.replicate 64 0)) (.bytes m) pk =
        .error "message must be 32 bytes") ∧
      (m.length ≠ 48 → p384.verify P (.bytes (List.replicate 96 0)) (.bytes m) pk =
        .error "message must be 48 bytes") ∧
      (m.length ≠ 66 → p521.verify P (.bytes (List.replicate 132 0)) (.bytes m) pk =
        .error "message must be 66 bytes")) ∧
    (∀ (P : SigProvider) (v pk : JSValue), isUint8Array v = false →
      p256.verify P (.bytes (List.replicate 64 0)) v pk = .error "message must be a Uint8Array" ∧
      p384.verify P (.bytes (List.replicate 96 0)) v pk = .error "message must be a Uint8Array" ∧
      p521.verify P (.bytes (List.replicate 132 0)) v pk = .error "message must be a Uint8Array") := by
  refine ⟨?_, ?_, ?_, ?_⟩
  · intro P v k h
    cases v
    case bytes b => simp [isUint8Array] at h
    all_goals exact ⟨rfl, rfl, rfl⟩
  · intro P m k
    exact ⟨fun h => by simp [p256.sign, h],
           fun h => by simp [p384.sign, h],
           fun h => by simp [p521.sign, h]⟩
  · intro P m pk
    exact ⟨fun h => by simp [p256.verify, h],
           fun h => by simp [p384.verify, h],
           fun h => by simp [p521.verify, h]⟩
  · intro P v pk h
    cases v
    case bytes b => simp [isUint8Array] at h
    all_goals exact ⟨by simp [p256.verify], by simp [p384.verify], by simp [p521.verify]⟩

/-- C6 witness: a 31-byte digest is rejected by p256.sign with the
length error, and the hex string "cafe01" is rejected by p256.sign with
the type error (no normalization). -/
theorem claim_C6_witness :
    p256.sign constSig (.bytes (List.replicate 31 0)) (.bytes (List.replicate 32 0)) =
      .error "message must be 32 bytes" ∧
    p256.sign constSig (.str "cafe01") (.bytes (List.replicate 32 0)) =
      .error "message must be a Uint8Array" :=
  ⟨(claim_C6_digest_only_strict_length.2.1 constSig (List.replicate 31 0)
      (.bytes (List.replicate 32 0))).1 (by simp),
   (claim_C6_digest_only_strict_length.1 constSig (.str "cafe01")
      (.bytes (List.replicate 32 0)) rfl).1⟩

/-- C1 counterexample: the claim says every adapter length-checks its
byte-buffer arguments before delegating — in particular that
`generatePrivateKey` with a wrong-length seed fails — but the
kyber1024 adapter (ML-KEM-1024, whose seed the spec fixes at 64 bytes)
and the dilithium65 adapter both accept a 10-byte seed and return it
verbatim instead of failing. -/
theorem claim_C1_counterexample :
    kyber1024.generatePrivateKey [] (some (.bytes (List.replicate 10 0))) =
      .ok (List.replicate 10 0) ∧
    (List.replicate 10 (0 : Nat)).length ≠ 64 ∧
    dilithium65.generatePrivateKey [] (some (.bytes (List.replicate 10 0))) =
      .ok (List.replicate 10 0) :=
  ⟨rfl, by decide, rfl⟩

/-- C1 amended: the classic-curve, key-exchange and SPHINCS adapters
validate a supplied seed for type and for the algorithm's fixed length
before delegating; the dilithium65 and kyber1024 adapters validate only
the type — a byte-buffer seed of any length passes through verbatim,
leaving length enforcement to the external provider. -/
theorem claim_C1_seed_validation_amended :
    (∀ (r : List Nat) (s : List Nat),
      (s.length ≠ 32 →
        secp256k1.generatePrivateKey r (some (.bytes s)) = .error "seed must be 32 bytes" ∧
        secp256k1Digest.generatePrivateKey r (some (.bytes s)) = .error "seed must be 32 bytes" ∧
        ed25519.generatePrivateKey r (some (.bytes s)) = .error "seed must be 32 bytes" ∧
        p256.generatePrivateKey r (some (.bytes s)) = .error "seed must be 32 bytes" ∧
        bls12_381.generatePrivateKey r (some (.bytes s)) = .error "seed must be 32 bytes" ∧
        ecdh.generatePrivateKey r (some (.bytes s)) = .error "seed must be 32 bytes") ∧
      (s.length ≠ 48 →
        p384.generatePrivateKey r (some (.bytes s)) = .error "seed must be 48 bytes") ∧
      (s.length ≠ 66 →
        p521.generatePrivateKey r (some (.bytes s)) = .error "seed must be 66 bytes") ∧
      (s.length ≠ 96 →
        sphincs256.generatePrivateKey r (some (.bytes s)) = .error "seed must be 96 bytes")) ∧
    (∀ (r : List Nat) (s : List Nat),
      dilithium65.generatePrivateKey r (some (.bytes s)) = .ok s ∧
      kyber1024.generatePrivateKey r (some (.bytes s)) = .ok s) ∧
    (∀ (r : List Nat) (v : JSValue), isUint8Array v = false →
      dilithium65.generatePrivateKey r (some v) =
        .error "seed must be a Uint8Array, use utils.formatMessage() for automatic conversion" ∧
      kyber1024.generatePrivateKey r (some v) = .error "seed must be a Uint8Array") := by
  refine ⟨?_, fun r s => ⟨rfl, rfl⟩, ?_⟩
  · intro r s
    refine ⟨?_, ?_, ?_, ?_⟩
    · intro h
      exact ⟨by simp [secp256k1.generatePrivateKey, h],
             by simp [secp256k1Digest.generatePrivateKey, h],
             by simp [ed25519.generatePrivateKey, h],
             by simp [p256.generatePrivateKey, h],
             by simp [bls12_381.generatePrivateKey, h],
             by simp [ecdh.generatePrivateKey, h]⟩
    · intro h; simp [p384.generatePrivateKey, h]
    · intro h; simp [p521.generatePrivateKey, h]
    · intro h; simp [sphincs256.generatePrivateKey, h]
  · intro r v h
    cases v
    case bytes b => simp [isUint8Array] at h
    all_goals exact ⟨rfl, rfl⟩

/-- C1 amended witness: a 10-byte seed is a length error for secp256k1
and p384 but passes kyber1024 verbatim; the string seed is a type error
for kyber1024. -/
theorem claim_C1_witness :
    secp256k1.generatePrivateKey [] (some (.bytes (List.replicate 10 0))) =
      .error "seed must be 32 bytes" ∧
    p384.generatePrivateKey [] (some (.bytes (List.replicate 10 0))) =
      .error "seed must be 48 bytes" ∧
    kyber1024.generatePrivateKey [] (some (.bytes (List.replicate 10 0))) =
      .ok (List.replicate 10 0) ∧
    kyber1024.generatePrivateKey [] (some (.str "invalid")) =
      .error "seed must be a Uint8Array" :=
  ⟨((claim_C1_seed_validation_amended.1 [] (List.replicate 10 0)).1 (by simp)).1,
   (claim_C1_seed_validation_amended.1 [] (List.replicate 10 0)).2.1 (by simp),
   (claim_C1_seed_validation_amended.2.1 [] (List.replicate 10 0)).2,
   (claim_C1_seed_validation_amended.2.2 [] (.str "invalid") rfl).2⟩

/-- C2 counterexample: for the dilithium65 Signing adapter the
spec's round-trip expression is not true — `generateKeyPair` returns
the provider's key-pair object whose fields are `publicKey` and
`secretKey`, so `generateKeyPair(S).privateKey` is `undefined` and
`sign(M, undefined)` fails with the secret-key type error instead of
producing a verifiable signature. -/
theorem claim_C2_counterexample :
    dilithium65.generateKeyPair trivialDsa [] (some (.bytes (List.replicate 32 0))) =
      .ok [("publicKey", .bytes (List.replicate 32 0)),
           ("secretKey", .bytes (List.replicate 32 0))] ∧
    objGet [("publicKey", .bytes (List.replicate 32 0)),
            ("secretKey", .bytes (List.replicate 32 0))] "privateKey" = .undefined ∧
    dilithium65.roundTripPrivateKeyField trivialDsa [] (.bytes (List.replicate 32 0))
      (.bytes [1, 2, 3]) =
      .error "secretKey must be a Uint8Array, use utils.fromHex() if you have a hex string" :=
  ⟨rfl, rfl, rfl⟩

/-- C2 amended: given a provider whose primitive satisfies the round
trip, the round trip verify(sign(M, keyPair.privateKey), M,
keyPair.publicKey) = true holds for the ed25519 and secp256k1 adapters
for every valid seed and every message their guards accept, and for the
sphincs256 adapter (whose generateKeyPair renames the provider's
secretKey field to privateKey) for every valid seed and byte message;
for the dilithium65 adapter the key-pair object has no privateKey
field, and the round trip holds with the field it actually returns,
secretKey; for the bls12_381 adapter, whose verify declares its
parameters in the order (message, signature, publicKey), the spec's
positional expression reaches the provider with message and signature
exchanged, and the round trip holds with the arguments in the
adapter's own declared order; the digest-only adapters p256, p384 and
p521 expose no generateKeyPair method, so the expression cannot be
formed for them. -/
theorem claim_C2_round_trip_amended :
    (∀ (P : SigProvider),
      (∀ m k, (P.sign m k).length = 64) →
      (∀ k, k.length = 32 → (P.getPublicKey k).length = 32) →
      (∀ m k, P.verify (P.sign m k) m (P.getPublicKey k) = true) →
      ∀ (r seed : List Nat) (msg : JSValue), seed.length = 32 →
        messageShapeGuard msg = true →
        ed25519.roundTrip P r (.bytes seed) msg = .ok true) ∧
    (∀ (P : SigProvider),
      (∀ m k, (P.sign m k).length = 64) →
      (∀ m k, P.verify (P.sign m k) m (P.getPublicKey k) = true) →
      ∀ (r seed : List Nat) (msg : JSValue), seed.length = 32 →
        messageShapeGuard msg = true → isNonHexStr msg = false →
        secp256k1.roundTrip P r (.bytes seed) msg = .ok true) ∧
    (∀ (P : DsaProvider),
      (∀ s m, P.verify (P.keygen s).1 m (P.sign (P.keygen s).2 m) = true) →
      ∀ (r seed m : List Nat),
        dilithium65.roundTripSecretKeyField P r (.bytes seed) (.bytes m) = .ok true) ∧
    (∀ (P : DsaProvider),
      (∀ s m, P.verify (P.keygen s).1 m (P.sign (P.keygen s).2 m) = true) →
      ∀ (r seed m : List Nat), seed.length = 96 →
        sphincs256.roundTripPrivateKeyField P r (.bytes seed) (.bytes m) = .ok true) ∧
    (∀ (P : SigProvider),
      (∀ m k, P.verify (P.sign m k) m (P.getPublicKey k) = true) →
      ∀ (r seed m : List Nat), seed.length = 32 →
        bls12_381.roundTripAdapterOrder P r (.bytes seed) (.bytes m) = .ok true) ∧
    (∀ (P : SigProvider) (r seed m : List Nat), seed.length = 32 →
      bls12_381.roundTripSpecOrder P r (.bytes seed) (.bytes m) =
        .ok (P.verify m (P.sign m seed) (P.getPublicKey seed))) ∧
    (p256.methods.contains "generateKeyPair" = false ∧
     p384.methods.contains "generateKeyPair" = false ∧
     p521.methods.contains "generateKeyPair" = false) := by
  refine ⟨?_, ?_, ?_, ?_, ?_, ?_, by decide, by decide, by decide⟩
  · intro P hsig hpk hrt r seed msg hseed hmsg
    obtain ⟨fm, hfm⟩ := formatMessage_ok_of_guard msg hmsg
    have hpk32 := hpk seed hseed
    simp [ed25519.roundTrip, ed25519.generateKeyPair, ed25519.generatePrivateKey,
          ed25519.getPublicKey, ed25519.sign, ed25519.verify,
          hseed, hmsg, hfm, hsig, hpk32, hrt]
  · intro P hsig hrt r seed msg hseed hmsg hnh
    obtain ⟨fm, hfm⟩ := formatMessage_ok_of_guard msg hmsg
    simp [secp256k1.roundTrip, secp256k1.generateKeyPair, secp256k1.generatePrivateKey,
          secp256k1.getPublicKey, secp256k1.sign, secp256k1.verify,
          hseed, hmsg, hnh, hfm, hsig, hrt]
  · intro P hrt r seed m
    have hsk : objGet [("publicKey", JSValue.bytes (P.keygen seed).1),
                       ("secretKey", JSValue.bytes (P.keygen seed).2)] "secretKey" =
        .bytes (P.keygen seed).2 := rfl
    have hpk : objGet [("publicKey", JSValue.bytes (P.keygen seed).1),
                       ("secretKey", JSValue.bytes (P.keygen seed).2)] "publicKey" =
        .bytes (P.keygen seed).1 := rfl
    simp [dilithium65.roundTripSecretKeyField, dilithium65.generateKeyPair,
          dilithium65.generatePrivateKey, dilithium65.sign, dilithium65.verify,
          hsk, hpk, hrt]
  · intro P hrt r seed m hseed
    have hsk : objGet [("publicKey", JSValue.bytes (P.keygen seed).1),
                       ("privateKey", JSValue.bytes (P.keygen seed).2)] "privateKey" =
        .bytes (P.keygen seed).2 := rfl
    have hpk : objGet [("publicKey", JSValue.bytes (P.keygen seed).1),
                       ("privateKey", JSValue.bytes (P.keygen seed).2)] "publicKey" =
        .bytes (P.keygen seed).1 := rfl
    simp [sphincs256.roundTripPrivateKeyField, sphincs256.generateKeyPair,
          sphincs256.generatePrivateKey, sphincs256.sign, sphincs256.verify,
          formatMessage, hseed, hsk, hpk, hrt]
  · intro P hrt r seed m hseed
    simp [bls12_381.roundTripAdapterOrder, bls12_381.generateKeyPair,
          bls12_381.generatePrivateKey, bls12_381.getPublicKey,
          bls12_381.sign, bls12_381.verify, formatMessage, hseed, hrt]
  · intro P r seed m hseed
    simp [bls12_381.roundTripSpecOrder, bls12_381.generateKeyPair,
          bls12_381.generatePrivateKey, bls12_381.getPublicKey,
          bls12_381.sign, bls12_381.verify, formatMessage, hseed]

/-- C2 amended witness: the round trips at concrete providers, seeds
and messages — including bls12_381 succeeding in its own argument
order and evaluating to false on the same inputs in the spec's
positional order, because `ordSig` rejects exchanged arguments. -/
theorem claim_C2_witness :
    ed25519.roundTrip constSig [] (.bytes (List.replicate 32 0)) (.bytes [1, 2, 3]) = .ok true ∧
    secp256k1.roundTrip constSig [] (.bytes (List.replicate 32 0)) (.str "abcd") = .ok true ∧
    dilithium65.roundTripSecretKeyField trivialDsa [] (.bytes (List.replicate 32 0))
      (.bytes [5]) = .ok true ∧
    sphincs256.roundTripPrivateKeyField trivialDsa [] (.bytes (List.replicate 96 0))
      (.bytes [7]) = .ok true ∧
    bls12_381.roundTripAdapterOrder ordSig [] (.bytes (List.replicate 32 0))
      (.bytes [1, 2, 3]) = .ok true ∧
    bls12_381.roundTripSpecOrder ordSig [] (.bytes (List.replicate 32 0))
      (.bytes [1, 2, 3]) = .ok false :=
  ⟨claim_C2_round_trip_amended.1 constSig
      (fun _ _ => by simp [constSig])
      (fun k h => by simpa [constSig] using h)
      (fun _ _ => by simp [constSig])
      [] (List.replicate 32 0) (.bytes [1, 2, 3]) (by simp) rfl,
   claim_C2_round_trip_amended.2.1 constSig
      (fun _ _ => by simp [constSig])
      (fun _ _ => by simp [constSig])
      [] (List.replicate 32 0) (.str "abcd") (by simp) rfl (by decide),
   claim_C2_round_trip_amended.2.2.1 trivialDsa
      (fun _ _ => by simp [trivialDsa])
      [] (List.replicate 32 0) [5],
   claim_C2_round_trip_amended.2.2.2.1 trivialDsa
      (fun _ _ => by simp [trivialDsa])
      [] (List.replicate 96 0) [7] (by simp),
   claim_C2_round_trip_amended.2.2.2.2.1 ordSig
      (fun _ _ => by simp [ordSig])
      [] (List.replicate 32 0) [1, 2, 3] (by simp),
   (claim_C2_round_trip_amended.2.2.2.2.2.1 ordSig
      [] (List.replicate 32 0) [1, 2, 3] (by simp)).trans rfl⟩

end Signatures
